import Mathlib

/-!
# SkillSphere gap-analysis core: shallow embedding and verification

This file embeds the gap-analysis engine of the SkillSphere repository
(`ai-services/models/gap_analysis_model.py`, class `GapAnalysisModel`,
plus `normalize_skill_name` from `ai-services/utils/preprocessing.py`)
as executable Lean definitions and proves or refutes the specification
claims about it.

Modelling conventions:
* Python `float` literals and arithmetic are modelled exactly over `ℚ`.
* Python `dict.get(k, d)` is modelled as association-list lookup with default.
* Python string operations (`.lower()`, substring `in`, `.strip()`, `.title()`)
  are modelled character-wise over `List Char` (ASCII case mapping, as all
  skill and requirement strings in play are ASCII).
* `np.random.normal(0, 0.5)` (the jitter in time estimation) is modelled as an
  explicit noise stream `noise : Nat → ℚ`, one draw per emitted gap record, so
  the stochastic function becomes a deterministic function of the stream.
* The hash-based cosine-similarity match score (`_create_skill_vector` /
  `_create_requirement_vector` / `_calculate_match_score`, lines 195–231)
  depends on Python's run-time `hash`, which is unspecified across processes;
  it is abstracted as an explicit parameter `hashMatch`, applied only when the
  requirement list is non-empty (the empty case returns 100.0 before any
  hashing, exactly as in the source).
* Fallible code is modelled with `Except String`; in particular the body of
  the `try:` block of `analyze_gaps` returns `Except String AnalysisResult` and the
  `except Exception` handler is the surrounding `match`.
-/

/-- ASCII lower-casing of one character, the effect of Python `str.lower()`
on the ASCII range (all inputs in this code base are ASCII). -/
def lowerChar (c : Char) : Char :=
  if 'A' ≤ c ∧ c ≤ 'Z' then Char.ofNat (c.toNat + 32) else c

/-- ASCII upper-casing of one character (used by Python `str.title()`). -/
def upperChar (c : Char) : Char :=
  if 'a' ≤ c ∧ c ≤ 'z' then Char.ofNat (c.toNat - 32) else c

/-- Python `s.lower()`. -/
def py_lower (s : String) : String := ⟨s.data.map lowerChar⟩

/-- Test `strLead needle hay` : does `needle` occur at the very start of `hay`?
(Helper for Python's substring test.) -/
def strLead : List Char → List Char → Bool
  | [], _ => true
  | _ :: _, [] => false
  | a :: as, b :: bs => a == b && strLead as bs

/-- Test `chContains needle hay` : does `needle` occur contiguously anywhere in
`hay`? (Python `needle in hay` on strings.) -/
def chContains (needle : List Char) : List Char → Bool
  | [] => strLead needle []
  | b :: bs => strLead needle (b :: bs) || chContains needle bs

/-- Python `sub in s` (substring containment). -/
def py_contains (s sub : String) : Bool := chContains sub.data s.data

/-- Python `dict.get(k, d)` over an association list. -/
def lookupD {α : Type} (l : List (String × α)) (k : String) (d : α) : α :=
  match l.find? (fun p => p.1 == k) with
  | some p => p.2
  | none => d

/-- A user skill entry: the `name`/`level` fields read by `analyze_gaps`
(lines 54–55; `level` defaults upstream, here carried explicitly). -/
structure UserSkill where
  name : String
  level : Int
deriving DecidableEq

/-- The `market_data` argument: the three sub-dicts `skill_levels`,
`demand` and `salary_impact` read by the model. -/
structure MarketData where
  skill_levels : List (String × Int)
  demand : List (String × ℚ)
  salary_impact : List (String × ℚ)

/-- A gap record as built at lines 71–78 and 83–91.  The level-loop records
carry no `is_missing` key; since the only reader is
`gap.get("is_missing", False)`, key absence is modelled as `false`. -/
structure GapRecord where
  skill_name : String
  current_level : Int
  required_level : Int
  gap_size : Int
  priority : ℚ
  estimated_time : Int
  is_missing : Bool
deriving DecidableEq

/-- Level keyword extraction from one lower-cased requirement string
(`_get_required_level`, lines 140–147). -/
def keywordLevel (reqLower : String) : Int :=
  if py_contains reqLower "senior" || py_contains reqLower "expert" then 5
  else if py_contains reqLower "intermediate" || py_contains reqLower "mid" then 3
  else if py_contains reqLower "junior" || py_contains reqLower "entry" then 2
  else 4

/-- The `for req in job_requirements` loop of `_get_required_level`
(lines 137–147): return the keyword level of the first requirement whose
lower-casing contains `skillName` as a substring; `none` if no requirement
does (then control falls through to the market lookup). -/
def findLevelInReqs (skillName : String) : List String → Option Int
  | [] => none
  | req :: rest =>
    let reqLower := py_lower req
    if py_contains reqLower skillName then some (keywordLevel reqLower)
    else findLevelInReqs skillName rest

/-- Embedding of `_get_required_level` (lines 128–151). The outer guard at line 135 tests
exact membership of `skill_name` among the lower-cased requirement strings;
only then is the keyword loop run.  On fall-through, the market
`skill_levels` lookup defaults to 3. -/
def get_required_level (skillName : String) (jobRequirements : List String)
    (marketData : MarketData) : Int :=
  let fromReqs : Option Int :=
    if (jobRequirements.map py_lower).contains skillName then
      findLevelInReqs skillName jobRequirements
    else none
  match fromReqs with
  | some l => l
  | none => lookupD marketData.skill_levels skillName 3

/-- Python `min(a, b)` on exact rationals (kernel-computable, unlike the
lattice `min` of `ℚ`). -/
def pyMin (a b : ℚ) : ℚ := if a ≤ b then a else b

/-- Python `max(a, b)` on exact rationals. -/
def pyMax (a b : ℚ) : ℚ := if a ≤ b then b else a

/-- Embedding of `_calculate_priority` (lines 153–167): base 0.5, plus 0.3 of the demand
signal and 0.2 of the salary-impact signal (each defaulting to 0.5), clamped
into [0, 1] by `min(1.0, max(0.0, ·))`. -/
def calculate_priority (skillName : String) (marketData : MarketData) : ℚ :=
  let marketDemand := lookupD marketData.demand skillName (1/2)
  let salaryImpact := lookupD marketData.salary_impact skillName (1/2)
  pyMin 1 (pyMax 0 (1/2 + marketDemand * (3/10) + salaryImpact * (1/5)))

/-- Python `int(q)` on a rational: truncation toward zero
(`Rat.floor` for non-negatives, `-Rat.floor (-q)` i.e. the ceiling
otherwise). -/
def pyInt (q : ℚ) : Int := if 0 ≤ q then Rat.floor q else -(Rat.floor (-q))

/-- Embedding of `_estimate_development_time` (lines 169–178): `max(1, int(2.5*gap_size
+ noise))` where `noise` stands for the `np.random.normal(0, 0.5)` draw. -/
def estimate_development_time (gapSize : Int) (noise : ℚ) : Int :=
  max 1 (pyInt ((gapSize : ℚ) * (5/2) + noise))

/-- Embedding of `_calculate_coverage_percentage` (lines 180–187): fraction of
requirement names that occur among the user's skill names, times 100;
100.0 when the requirement list is empty. -/
def calculate_coverage_percentage (userSkills jobRequirements : List String) : ℚ :=
  if jobRequirements.isEmpty then 100
  else ((jobRequirements.countP (fun s => userSkills.contains s) : ℚ)
          / (jobRequirements.length : ℚ)) * 100

/-- The per-skill pairs `(skill.get("name", "").lower(), skill.get("level", 1))`
(lines 54–55): the per-skill data actually consumed by the analysis. -/
def userPairs (userSkills : List UserSkill) : List (String × Int) :=
  userSkills.map fun s => (py_lower s.name, s.level)

/-- The level-analysis loop (lines 65–78): for each user skill whose
lower-cased name occurs *verbatim* among the lower-cased requirement
strings, emit a gap record when `current_level < required_level`.  The
counter `k` indexes the jitter stream: one draw per emitted record. -/
def levelGaps (m : MarketData) (jobReqs jobLower : List String)
    (noise : Nat → ℚ) : List (String × Int) → Nat → List GapRecord × Nat
  | [], k => ([], k)
  | (name, lvl) :: rest, k =>
    if jobLower.contains name then
      let req := get_required_level name jobReqs m
      if lvl < req then
        let g : GapRecord :=
          { skill_name := name, current_level := lvl, required_level := req,
            gap_size := req - lvl, priority := calculate_priority name m,
            estimated_time := estimate_development_time (req - lvl) (noise k),
            is_missing := false }
        let rec' := levelGaps m jobReqs jobLower noise rest (k + 1)
        (g :: rec'.1, rec'.2)
      else levelGaps m jobReqs jobLower noise rest k
    else levelGaps m jobReqs jobLower noise rest k

/-- The missing-skills loop (lines 81–91): every requirement name not
matched verbatim by a user skill name becomes a gap with
`current_level = 0`, `gap_size = required_level` and `is_missing = True`. -/
def missingGaps (m : MarketData) (jobReqs : List String)
    (noise : Nat → ℚ) : List String → Nat → List GapRecord × Nat
  | [], k => ([], k)
  | name :: rest, k =>
    let req := get_required_level name jobReqs m
    let g : GapRecord :=
      { skill_name := name, current_level := 0, required_level := req,
        gap_size := req, priority := calculate_priority name m,
        estimated_time := estimate_development_time req (noise k),
        is_missing := true }
    let rec' := missingGaps m jobReqs noise rest (k + 1)
    (g :: rec'.1, rec'.2)

/-- Lines 52–91 of `analyze_gaps`: the full gap-record construction, in
emission order (level-loop records first, then missing-skill records). -/
def computeSkillGaps (userSkills : List UserSkill) (jobReqs : List String)
    (m : MarketData) (noise : Nat → ℚ) : List GapRecord :=
  let pairs := userPairs userSkills
  let userNames := pairs.map Prod.fst
  let jobLower := jobReqs.map py_lower
  let missing := jobLower.filter fun s => !(userNames.contains s)
  let lg := levelGaps m jobReqs jobLower noise pairs 0
  let mg := missingGaps m jobReqs noise missing lg.2
  lg.1 ++ mg.1

/-- One step of Python's stable descending sort by priority: place `g`
before the first element whose priority is `≤ g.priority` (so earlier
elements win ties, as with `sort(key=..., reverse=True)`). -/
def insertGapDesc (g : GapRecord) : List GapRecord → List GapRecord
  | [] => [g]
  | h :: t => if h.priority ≤ g.priority then g :: h :: t else h :: insertGapDesc g t

/-- Python `sorted(gaps, key=lambda x: x["priority"], reverse=True)`
(and the in-place `sort` at line 94): stable, descending by priority. -/
def sortGapsDesc : List GapRecord → List GapRecord
  | [] => []
  | h :: t => insertGapDesc h (sortGapsDesc t)

/-- A timeline phase (lines 387–417). -/
structure Phase where
  name : String
  duration : Int
  skills : List GapRecord
  start_month : Int
  end_month : Int
deriving DecidableEq

/-- The timeline value (lines 372–376, 421–422). -/
structure Timeline where
  phases : List Phase
  total_duration : Int
  critical_path : List String
deriving DecidableEq

/-- The high-priority band (line 379): `priority >= 0.8`. -/
def highBand (gaps : List GapRecord) : List GapRecord :=
  gaps.filter fun g => decide ((4:ℚ)/5 ≤ g.priority)

/-- The medium-priority band (line 380): `0.5 <= priority < 0.8`. -/
def mediumBand (gaps : List GapRecord) : List GapRecord :=
  gaps.filter fun g => decide ((1:ℚ)/2 ≤ g.priority ∧ g.priority < 4/5)

/-- The low-priority band (line 381): `priority < 0.5`. -/
def lowBand (gaps : List GapRecord) : List GapRecord :=
  gaps.filter fun g => decide (g.priority < (1:ℚ)/2)

/-- Embedding of `_create_development_timeline` (lines 370–424): one fixed 6-month phase
per non-empty priority band, executed high → medium → low with cumulative
start/end months; `total_duration` is the final month counter and
`critical_path` lists the high-band skill names. -/
def create_development_timeline (skillGaps : List GapRecord) : Timeline :=
  let high := highBand skillGaps
  let medium := mediumBand skillGaps
  let low := lowBand skillGaps
  let p1 : List Phase := if high.isEmpty then [] else
    [{ name := "Critical Skills Development", duration := 6, skills := high,
       start_month := 0, end_month := 6 }]
  let m1 : Int := if high.isEmpty then 0 else 6
  let p2 : List Phase := if medium.isEmpty then [] else
    [{ name := "Advanced Skills Development", duration := 6, skills := medium,
       start_month := m1, end_month := m1 + 6 }]
  let m2 : Int := if medium.isEmpty then m1 else m1 + 6
  let p3 : List Phase := if low.isEmpty then [] else
    [{ name := "Specialized Skills Development", duration := 6, skills := low,
       start_month := m2, end_month := m2 + 6 }]
  let m3 : Int := if low.isEmpty then m2 else m2 + 6
  { phases := p1 ++ p2 ++ p3, total_duration := m3,
    critical_path := high.map GapRecord.skill_name }

/-- A milestone record as intended by lines 323–328 (never actually
constructed at run time, see `create_development_milestones`). -/
structure Milestone where
  level : Int
  description : String
  estimated_time : ℚ
  criteria : List String
deriving DecidableEq

/-- Embedding of `_get_level_criteria` (lines 333–368): the fixed five-tier criteria
rubric; an empty list outside levels 1–5. -/
def get_level_criteria (skillName : String) (level : Int) : List String :=
  if level = 1 then
    ["Understand basic " ++ skillName ++ " concepts",
     "Complete introductory " ++ skillName ++ " tutorials",
     "Demonstrate basic " ++ skillName ++ " knowledge"]
  else if level = 2 then
    ["Apply " ++ skillName ++ " in simple projects",
     "Understand intermediate " ++ skillName ++ " concepts",
     "Complete " ++ skillName ++ " exercises independently"]
  else if level = 3 then
    ["Use " ++ skillName ++ " in complex projects",
     "Teach " ++ skillName ++ " to others",
     "Contribute to " ++ skillName ++ " discussions and forums"]
  else if level = 4 then
    ["Lead " ++ skillName ++ " projects",
     "Design " ++ skillName ++ " solutions",
     "Mentor others in " ++ skillName ++ ""]
  else if level = 5 then
    ["Expert-level " ++ skillName ++ " knowledge",
     "Contribute to " ++ skillName ++ " standards and best practices",
     "Recognized as " ++ skillName ++ " expert in the industry"]
  else []

/-- Embedding of `_create_development_milestones` (lines 314–331).  The loop body at
line 325 interpolates `skill_name` into the description string, but no
variable named `skill_name` is bound in this method (the gap's name is
only available as `gap["skill_name"]`; the locals `skill_name` of
`_generate_gap_recommendations` and of the level loop in `analyze_gaps`
are in other function scopes and do not leak).  Hence the first loop
iteration raises `NameError`, modelled as `Except.error`; when the range
`range(current_level+1, target_level+1)` is empty the loop body never runs
and the empty list is returned. -/
def create_development_milestones (gap : GapRecord) : Except String (List Milestone) :=
  if gap.current_level < gap.required_level then
    .error "NameError: name skill_name is not defined"
  else
    .ok []

/-- Embedding of `_get_skill_development_actions` (lines 259–275). -/
def get_skill_development_actions (skillName : String) (gap : GapRecord) : List String :=
  (if gap.is_missing then
     ["Start learning " ++ skillName ++ " from scratch",
      "Take an introductory course in " ++ skillName]
   else
     ["Improve " ++ skillName ++ " from level " ++ toString gap.current_level
        ++ " to " ++ toString gap.required_level,
      "Practice " ++ skillName ++ " in real-world projects"])
  ++ ["Seek mentorship in " ++ skillName,
      "Join " ++ skillName ++ " communities and forums",
      "Work on " ++ skillName ++ " projects in your current role"]

/-- A learning-resource descriptor (lines 281–310). -/
structure Resource where
  type : String
  name : String
  provider : String
  duration : String
  level : String
deriving DecidableEq

/-- Embedding of `_get_learning_resources` (lines 277–312): the fixed four-template
catalog, parameterised by the skill name. -/
def get_learning_resources (skillName : String) (_marketData : MarketData) : List Resource :=
  [{ type := "course", name := "Complete " ++ skillName ++ " Course",
     provider := "SkillSphere Learning", duration := "8-12 weeks",
     level := "Beginner to Advanced" },
   { type := "book", name := "The Complete Guide to " ++ skillName,
     provider := "Technical Books", duration := "Self-paced",
     level := "Comprehensive" },
   { type := "certification", name := skillName ++ " Professional Certification",
     provider := "Industry Standard", duration := "3-6 months",
     level := "Professional" },
   { type := "practice", name := skillName ++ " Practice Projects",
     provider := "SkillSphere Labs", duration := "Ongoing",
     level := "Hands-on" }]

/-- A recommendation record (lines 244–253). -/
structure Recommendation where
  skill_name : String
  priority : ℚ
  current_level : Int
  target_level : Int
  estimated_time : Int
  actions : List String
  resources : List Resource
  milestones : List Milestone
deriving DecidableEq

/-- The loop body of `_generate_gap_recommendations` (lines 241–255) for a
single gap; the milestone call may raise. -/
def buildRecommendation (m : MarketData) (gap : GapRecord) : Except String Recommendation :=
  match create_development_milestones gap with
  | .error e => .error e
  | .ok ms =>
    .ok { skill_name := gap.skill_name, priority := gap.priority,
          current_level := gap.current_level, target_level := gap.required_level,
          estimated_time := gap.estimated_time,
          actions := get_skill_development_actions gap.skill_name gap,
          resources := get_learning_resources gap.skill_name m,
          milestones := ms }

/-- Sequencing of the recommendation loop: the first raising iteration
aborts the whole computation. -/
def buildRecommendations (m : MarketData) : List GapRecord → Except String (List Recommendation)
  | [] => .ok []
  | g :: gs =>
    match buildRecommendation m g with
    | .error e => .error e
    | .ok r =>
      match buildRecommendations m gs with
      | .error e => .error e
      | .ok rs => .ok (r :: rs)

/-- Embedding of `_generate_gap_recommendations` (lines 233–257): re-sort by priority
(stable, descending) and build a recommendation for each of the top 5 gaps. -/
def generate_gap_recommendations (skillGaps : List GapRecord) (m : MarketData) :
    Except String (List Recommendation) :=
  buildRecommendations m ((sortGapsDesc skillGaps).take 5)

/-- The summary sub-dict (lines 103–109 / 119–125). -/
structure GapSummary where
  total_gaps : Nat
  high_priority_gaps : Nat
  total_development_time : Int
  coverage_percentage : ℚ
  match_score : ℚ
deriving DecidableEq

/-- The value returned by `analyze_gaps`.  The error branch (lines 116–126)
returns a dict without `recommendations`/`timeline` keys and with an
`error` key; key absence is modelled with `Option`. -/
structure AnalysisResult where
  error : Option String
  gaps : List GapRecord
  summary : GapSummary
  recommendations : Option (List Recommendation)
  timeline : Option Timeline

/-- Embedding of `_calculate_match_score` (lines 189–203).  For an empty requirement
list it returns 100.0 before any vector is built; otherwise it computes a
cosine similarity of hash-bucket vectors, which depends on Python's
run-time `hash` and is abstracted here as the parameter `hashMatch`. -/
def calculate_match_score (hashMatch : List UserSkill → List String → ℚ)
    (userSkills : List UserSkill) (jobRequirements : List String) : ℚ :=
  if jobRequirements.isEmpty then 100 else hashMatch userSkills jobRequirements

/-- The body of the `try:` block of `analyze_gaps` (lines 52–112), returning
`Except` so that the single raising sub-computation (milestone generation
inside the recommendations) propagates to the handler. -/
def analyzeGapsCore (hashMatch : List UserSkill → List String → ℚ)
    (userSkills : List UserSkill) (jobReqs : List String) (m : MarketData)
    (noise : Nat → ℚ) : Except String AnalysisResult :=
  let sortedGaps := sortGapsDesc (computeSkillGaps userSkills jobReqs m noise)
  let userNames := userSkills.map fun s => py_lower s.name
  let jobLower := jobReqs.map py_lower
  match generate_gap_recommendations sortedGaps m with
  | .error e => .error e
  | .ok recs =>
    .ok { error := none,
          gaps := sortedGaps,
          summary :=
            { total_gaps := sortedGaps.length,
              high_priority_gaps := (highBand sortedGaps).length,
              total_development_time := (sortedGaps.map GapRecord.estimated_time).sum,
              coverage_percentage := calculate_coverage_percentage userNames jobLower,
              match_score := calculate_match_score hashMatch userSkills jobReqs },
          recommendations := some recs,
          timeline := some (create_development_timeline sortedGaps) }

/-- The all-zero summary of the `except` branch (lines 119–125). -/
def zeroSummary : GapSummary :=
  { total_gaps := 0, high_priority_gaps := 0, total_development_time := 0,
    coverage_percentage := 0, match_score := 0 }

/-- Embedding of `analyze_gaps` (lines 38–126): the `try/except` wrapper.  Any raise
inside the body degrades to the zeroed fallback result. -/
def analyze_gaps (hashMatch : List UserSkill → List String → ℚ)
    (userSkills : List UserSkill) (jobReqs : List String) (m : MarketData)
    (noise : Nat → ℚ) : AnalysisResult :=
  match analyzeGapsCore hashMatch userSkills jobReqs m noise with
  | .ok r => r
  | .error e =>
    { error := some e, gaps := [], summary := zeroSummary,
      recommendations := none, timeline := none }

/-- Python whitespace test for `str.strip()`. -/
def isPySpace (c : Char) : Bool := c = ' ' || c = '\t' || c = '\n' || c = '\r'

/-- Python `s.strip()`. -/
def py_strip (s : String) : String :=
  ⟨((s.data.dropWhile isPySpace).reverse.dropWhile isPySpace).reverse⟩

/-- ASCII letter test (word boundaries of Python `str.title()`). -/
def isAsciiAlpha (c : Char) : Bool :=
  ('a' ≤ c ∧ c ≤ 'z') || ('A' ≤ c ∧ c ≤ 'Z')

/-- Worker for Python `str.title()`: upper-case a letter that follows a
non-letter, lower-case every other letter. -/
def titleAux : Bool → List Char → List Char
  | _, [] => []
  | prevAlpha, c :: cs =>
    if isAsciiAlpha c then
      (if prevAlpha then lowerChar c else upperChar c) :: titleAux true cs
    else c :: titleAux false cs

/-- Python `s.title()`. -/
def py_title (s : String) : String := ⟨titleAux false s.data⟩

/-- The fixed synonym table `skill_mapping` of `SkillsPreprocessor`
(`utils/preprocessing.py`, lines 212–237). -/
def skill_mapping : List (String × String) :=
  [("javascript", "JavaScript"), ("js", "JavaScript"),
   ("react.js", "React"), ("reactjs", "React"),
   ("node.js", "Node.js"), ("nodejs", "Node.js"),
   ("python", "Python"), ("java", "Java"),
   ("c++", "C++"), ("c#", "C#"),
   ("machine learning", "Machine Learning"), ("ml", "Machine Learning"),
   ("artificial intelligence", "Artificial Intelligence"),
   ("ai", "Artificial Intelligence"),
   ("data science", "Data Science"),
   ("project management", "Project Management"),
   ("agile", "Agile"), ("scrum", "Scrum"), ("devops", "DevOps"),
   ("cloud computing", "Cloud Computing"),
   ("aws", "Amazon Web Services"), ("azure", "Microsoft Azure"),
   ("gcp", "Google Cloud Platform")]

/-- Embedding of `normalize_skill_name` (`utils/preprocessing.py`, lines 238–249):
look the lower-cased, stripped name up in the synonym table, falling back
to the title-cased original. -/
def normalize_skill_name (skill : String) : String :=
  lookupD skill_mapping (py_strip (py_lower skill)) (py_title skill)

/-- The clamp combinator as the specification states it. -/
def clampQ (lo hi x : ℚ) : ℚ := max lo (min hi x)

/-- The non-numeric footprint of a gap record (used to compare gap sets
without the jitter-dependent and priority fields). -/
def gapView (g : GapRecord) : String × Int × Int × Int × Bool :=
  (g.skill_name, g.current_level, g.required_level, g.gap_size, g.is_missing)

/-- The concrete gap record used to witness C4's theorem. -/
def wGap : GapRecord :=
  { skill_name := "sql", current_level := 0, required_level := 4,
    gap_size := 4, priority := calculate_priority "sql" ⟨[], [], []⟩,
    estimated_time := estimate_development_time 4 0, is_missing := false }

/-! ## Helper lemmas -/

/-- Function `pyMin` agrees with the lattice `min` on `ℚ`. -/
theorem pyMin_eq_min (a b : ℚ) : pyMin a b = min a b := by
  unfold pyMin
  split_ifs with h
  · exact (min_eq_left h).symm
  · exact (min_eq_right (le_of_not_le h)).symm

/-- Function `pyMax` agrees with the lattice `max` on `ℚ`. -/
theorem pyMax_eq_max (a b : ℚ) : pyMax a b = max a b := by
  unfold pyMax
  split_ifs with h
  · exact (max_eq_right h).symm
  · exact (max_eq_left (le_of_not_le h)).symm

/-- The normalisation `min 1 (max 0 x)` used by the code equals the
clamp `clamp(x, 0, 1)` stated by the specification. -/
theorem min_max_eq_clampQ (x : ℚ) : min 1 (max 0 x) = clampQ 0 1 x := by
  unfold clampQ
  rw [max_min_distrib_left]
  norm_num

/-- Computable `Rat.floor` is the `⌊·⌋` of the `FloorRing` instance on `ℚ`. -/
theorem ratFloor_eq_intFloor (q : ℚ) : Rat.floor q = ⌊q⌋ := by
  rw [Rat.floor_def', Rat.floor_def]

/-! ## C1 — milestone generation fails on the unbound name `skill_name` -/

/-- C1 (code_bug evidence): for every gap actually selected for a
recommendation (i.e. with `current_level < required_level`, which holds for
every emitted gap record), `_create_development_milestones` does not build
any milestone: its first loop iteration evaluates the description f-string
`f"Reach {skill_name} level {level}"` whose name `skill_name` is unbound in
that scope, raising `NameError`.  The claim that the milestone-building
branch never fails and yields one milestone per level step is false of the
code. -/
theorem create_development_milestones_raises (gap : GapRecord)
    (h : gap.current_level < gap.required_level) :
    create_development_milestones gap
      = .error "NameError: name skill_name is not defined" := by
  unfold create_development_milestones
  exact if_pos h

/-- Witness for C1's theorem at a concrete recommendation-selected gap
(the `sql` gap of end-to-end scenario A). -/
theorem create_development_milestones_raises_witness :
    ((0:Int) < 4) ∧
      create_development_milestones
        { skill_name := "sql", current_level := 0, required_level := 4,
          gap_size := 4, priority := 3/4, estimated_time := 10,
          is_missing := true }
        = .error "NameError: name skill_name is not defined" :=
  ⟨by norm_num,
   create_development_milestones_raises
     { skill_name := "sql", current_level := 0, required_level := 4,
       gap_size := 4, priority := 3/4, estimated_time := 10,
       is_missing := true } (by norm_num)⟩

/-! ## C2 — `analyze_gaps` is total and degrades to the zeroed fallback -/

/-- C2 (confirmed): `analyze_gaps` is a total function — the whole body of
the `try:` is modelled in `analyzeGapsCore` with every raising path as
`Except.error`, and the `except Exception` handler catches it — and on any
internal failure the returned result has an empty gaps list and all five
summary fields equal to zero (lines 116–126).  On the non-failing branch
the result carries no error marker. -/
theorem analyze_gaps_never_raises (hashMatch : List UserSkill → List String → ℚ)
    (userSkills : List UserSkill) (jobReqs : List String) (m : MarketData)
    (noise : Nat → ℚ) :
    (analyze_gaps hashMatch userSkills jobReqs m noise).error = none ∨
      ((analyze_gaps hashMatch userSkills jobReqs m noise).gaps = [] ∧
       (analyze_gaps hashMatch userSkills jobReqs m noise).summary.total_gaps = 0 ∧
       (analyze_gaps hashMatch userSkills jobReqs m noise).summary.high_priority_gaps = 0 ∧
       (analyze_gaps hashMatch userSkills jobReqs m noise).summary.total_development_time = 0 ∧
       (analyze_gaps hashMatch userSkills jobReqs m noise).summary.coverage_percentage = 0 ∧
       (analyze_gaps hashMatch userSkills jobReqs m noise).summary.match_score = 0) := by
  rcases hgen : generate_gap_recommendations
      (sortGapsDesc (computeSkillGaps userSkills jobReqs m noise)) m with e | recs
  · exact Or.inr (by simp [analyze_gaps, analyzeGapsCore, hgen, zeroSummary])
  · exact Or.inl (by simp [analyze_gaps, analyzeGapsCore, hgen])

/-! ## C5 — priority formula and bound -/

/-- C5 (confirmed): the priority of a skill under any market data equals
`clamp(0.5 + 0.3*market_demand + 0.2*salary_impact, 0, 1)` with
`market_demand` and `salary_impact` looked up by skill name and each
defaulting to 0.5, and consequently always lies in [0, 1]. -/
theorem calculate_priority_spec (skillName : String) (m : MarketData) :
    calculate_priority skillName m
      = clampQ 0 1 (1/2 + (3/10) * lookupD m.demand skillName (1/2)
                        + (1/5) * lookupD m.salary_impact skillName (1/2)) ∧
    0 ≤ calculate_priority skillName m ∧ calculate_priority skillName m ≤ 1 := by
  have hform : calculate_priority skillName m
      = clampQ 0 1 (1/2 + (3/10) * lookupD m.demand skillName (1/2)
                        + (1/5) * lookupD m.salary_impact skillName (1/2)) := by
    unfold calculate_priority
    rw [pyMin_eq_min, pyMax_eq_max, min_max_eq_clampQ]
    ring_nf
  refine ⟨hform, ?_, ?_⟩
  · rw [hform]; unfold clampQ; exact le_max_left 0 _
  · rw [hform]; unfold clampQ
    exact max_le (by norm_num) (min_le_left 1 _)

/-! ## C9 — development-time estimate: truncation, not rounding -/

/-- C9 counterexample: at `gap_size = 3` with the jitter disabled the code
computes `max(1, int(7.5)) = 7` (Python `int` truncates), while the claimed
`max(1, round(2.5*3))` is `8`; so "rounded" is false of the code. -/
theorem estimate_development_time_round_counterexample :
    estimate_development_time 3 0 = 7 ∧ max 1 (round ((5:ℚ)/2 * 3)) = 8 := by
  constructor
  · norm_num [estimate_development_time, pyInt, Rat.floor_def']
  · norm_num [round_eq]

/-- C9 (amended): the estimate is `2.5 * gap_size` *truncated* (Python
`int`), minimum 1: with the jitter disabled it equals `⌊5*g/2⌋` for every
`gap_size ≥ 1`, and for every gap size and every jitter value the result is
an integer ≥ 1. -/
theorem estimate_development_time_spec (g : Int) (noise : ℚ) (hg : 1 ≤ g) :
    1 ≤ estimate_development_time g noise ∧
    estimate_development_time g 0 = ⌊(5 * (g:ℚ)) / 2⌋ := by
  constructor
  · exact le_max_left 1 _
  · have hq : (0:ℚ) ≤ (g:ℚ) * (5/2) + 0 := by
      have : (1:ℚ) ≤ (g:ℚ) := by exact_mod_cast hg
      nlinarith
    have hfloor : pyInt ((g:ℚ) * (5/2) + 0) = ⌊(5 * (g:ℚ)) / 2⌋ := by
      unfold pyInt
      rw [if_pos hq, ratFloor_eq_intFloor]
      congr 1
      ring
    unfold estimate_development_time
    rw [hfloor]
    have h2 : (1:Int) ≤ ⌊(5 * (g:ℚ)) / 2⌋ := by
      rw [Int.le_floor]
      have : (1:ℚ) ≤ (g:ℚ) := by exact_mod_cast hg
      push_cast
      linarith
    exact max_eq_right h2

/-- Witness for C9's amended theorem at `gap_size = 3` with jitter `7/10`
for the bound and jitter `0` for the deterministic value. -/
theorem estimate_development_time_spec_witness :
    (1 ≤ (3:Int)) ∧ 1 ≤ estimate_development_time 3 (7/10) ∧
      estimate_development_time 3 0 = ⌊(5 * ((3:Int):ℚ)) / 2⌋ :=
  ⟨by norm_num, (estimate_development_time_spec 3 (7/10) (by norm_num)).1,
   (estimate_development_time_spec 3 0 (by norm_num)).2⟩

/-! ## Invariants of the emitted gap records -/

/-- A character list leads itself. -/
theorem strLead_self (l : List Char) : strLead l l = true := by
  induction l with
  | nil => rfl
  | cons a t ih => simp [strLead, ih]

/-- Every string contains itself as a substring. -/
theorem py_contains_self (s : String) : py_contains s s = true := by
  unfold py_contains
  cases h : s.data with
  | nil => rfl
  | cons b bs => simp [chContains, strLead_self]

/-- The keyword rule always yields a level between 2 and 5. -/
theorem keywordLevel_bounds (s : String) : 2 ≤ keywordLevel s ∧ keywordLevel s ≤ 5 := by
  unfold keywordLevel
  split_ifs <;> norm_num

/-- If `skill` is the lower-casing of some requirement, the keyword loop
finds a level, and that level is at least 2. -/
theorem findLevelInReqs_of_mem (skill : String) (reqs : List String)
    (h : skill ∈ reqs.map py_lower) :
    ∃ l, findLevelInReqs skill reqs = some l ∧ 2 ≤ l ∧ l ≤ 5 := by
  induction reqs with
  | nil => simp at h
  | cons r rest ih =>
    by_cases hc : py_contains (py_lower r) skill = true
    · exact ⟨keywordLevel (py_lower r), by simp [findLevelInReqs, hc],
        (keywordLevel_bounds (py_lower r)).1, (keywordLevel_bounds (py_lower r)).2⟩
    · have hmem : skill ∈ rest.map py_lower := by
        rcases List.mem_map.1 h with ⟨q, hq, hqe⟩
        rcases List.mem_cons.1 hq with rfl | hq2
        · exfalso
          apply hc
          rw [← hqe]
          exact py_contains_self (py_lower q)
        · exact List.mem_map.2 ⟨q, hq2, hqe⟩
      rcases ih hmem with ⟨l, hl, h2, h5⟩
      exact ⟨l, by simp [findLevelInReqs, hc, hl], h2, h5⟩

/-- Under the guard of line 135 (`skill` occurs verbatim among the
lower-cased requirements), `_get_required_level` returns a level in [2, 5]
that is independent of the market data. -/
theorem get_required_level_of_mem (skill : String) (reqs : List String)
    (m : MarketData) (h : skill ∈ reqs.map py_lower) :
    ∃ l, get_required_level skill reqs m = l ∧ 2 ≤ l ∧ l ≤ 5 := by
  rcases findLevelInReqs_of_mem skill reqs h with ⟨l, hl, h2, h5⟩
  refine ⟨l, ?_, h2, h5⟩
  unfold get_required_level
  have hc : (reqs.map py_lower).contains skill = true := by simpa using h
  rw [hc]
  simp [hl]

/-- Every record emitted by the level-analysis loop has a positive gap
equal to `required − current` and no `is_missing` marker. -/
theorem levelGaps_mem_spec (m : MarketData) (jobReqs jobLower : List String)
    (noise : Nat → ℚ) :
    ∀ pairs k, ∀ g ∈ (levelGaps m jobReqs jobLower noise pairs k).1,
      g.is_missing = false ∧ g.gap_size = g.required_level - g.current_level ∧
        0 < g.gap_size := by
  intro pairs
  induction pairs with
  | nil => intro k g hg; simp [levelGaps] at hg
  | cons p rest ih =>
    intro k g hg
    rcases p with ⟨name, lvl⟩
    by_cases h1 : jobLower.contains name = true
    · by_cases h2 : lvl < get_required_level name jobReqs m
      · rw [levelGaps] at hg
        rw [if_pos h1, if_pos h2] at hg
        rcases List.mem_cons.1 hg with rfl | hg2
        · exact ⟨rfl, rfl, by simpa using h2⟩
        · exact ih (k + 1) g hg2
      · rw [levelGaps] at hg
        rw [if_pos h1, if_neg h2] at hg
        exact ih k g hg
    · rw [levelGaps] at hg
      rw [if_neg h1] at hg
      exact ih k g hg

/-- Every record emitted by the missing-skills loop is marked missing, has
`current_level = 0`, and — provided every name in the worklist occurs among
the lower-cased requirements — a required level in [2, 5] with
`gap_size = required_level > 0`. -/
theorem missingGaps_mem_spec (m : MarketData) (jobReqs : List String)
    (noise : Nat → ℚ) :
    ∀ names k, (∀ n ∈ names, n ∈ jobReqs.map py_lower) →
      ∀ g ∈ (missingGaps m jobReqs noise names k).1,
        g.is_missing = true ∧ g.current_level = 0 ∧
          g.gap_size = g.required_level - g.current_level ∧ 0 < g.gap_size := by
  intro names
  induction names with
  | nil => intro k _ g hg; simp [missingGaps] at hg
  | cons n rest ih =>
    intro k hall g hg
    rw [missingGaps] at hg
    rcases List.mem_cons.1 hg with rfl | hg2
    · rcases get_required_level_of_mem n jobReqs m (hall n (List.mem_cons_self n rest))
        with ⟨l, hl, h2, _⟩
      refine ⟨rfl, rfl, by simp, ?_⟩
      show (0:Int) < get_required_level n jobReqs m
      rw [hl]; omega
    · exact ih (k + 1) (fun q hq => hall q (List.mem_cons_of_mem n hq)) g hg2

/-- Core invariant of the gap-construction phase (lines 52–91): every
emitted record satisfies `gap_size = required_level − current_level > 0`,
`is_missing` implies `current_level = 0`, and a record from the level loop
is never marked missing. -/
theorem computeSkillGaps_mem_spec (userSkills : List UserSkill)
    (jobReqs : List String) (m : MarketData) (noise : Nat → ℚ) :
    ∀ g ∈ computeSkillGaps userSkills jobReqs m noise,
      g.gap_size = g.required_level - g.current_level ∧ 0 < g.gap_size ∧
        (g.is_missing = true → g.current_level = 0) := by
  intro g hg
  unfold computeSkillGaps at hg
  rcases List.mem_append.1 hg with hg1 | hg2
  · rcases levelGaps_mem_spec m jobReqs (jobReqs.map py_lower) noise
      (userPairs userSkills) 0 g hg1 with ⟨hm, hs, hp⟩
    exact ⟨hs, hp, fun hfalse => by rw [hm] at hfalse; cases hfalse⟩
  · have hsub : ∀ n ∈ (jobReqs.map py_lower).filter
        (fun s => !(((userPairs userSkills).map Prod.fst).contains s)),
        n ∈ jobReqs.map py_lower := fun n hn => (List.mem_filter.1 hn).1
    rcases missingGaps_mem_spec m jobReqs noise _ _ hsub g hg2 with ⟨hm, hc, hs, hp⟩
    exact ⟨hs, hp, fun _ => hc⟩

/-! ## C4 — gap sign invariant holds; the `is_missing` iff only half-holds -/

/-- C4 counterexample: a user skill listed with level 0 that matches a
requirement goes through the level loop (lines 65–78), which emits a record
with `current_level = 0` but *no* `is_missing` marker — refuting
"`is_missing` is true iff `current_level = 0`". -/
theorem gap_is_missing_counterexample :
    ((computeSkillGaps [⟨"sql", 0⟩] ["sql"] ⟨[], [], []⟩ (fun _ => 0)).map
      (fun g => (g.current_level, g.is_missing))) = [((0:Int), false)] := by
  decide

/-- C4 (amended): every emitted gap record satisfies
`gap_size = required_level − current_level` with `gap_size > 0` (so no
record is emitted for a met requirement), and `is_missing = true` implies
`current_level = 0`; the converse implication fails (see the
counterexample), because a skill the user reports at level 0 yields an
unmarked record. -/
theorem gap_record_invariants (userSkills : List UserSkill)
    (jobReqs : List String) (m : MarketData) (noise : Nat → ℚ) :
    ∀ g ∈ computeSkillGaps userSkills jobReqs m noise,
      g.gap_size = g.required_level - g.current_level ∧ 0 < g.gap_size ∧
        (g.is_missing = true → g.current_level = 0) :=
  computeSkillGaps_mem_spec userSkills jobReqs m noise

/-- Witness for C4's theorem at a concrete emitted record. -/
theorem gap_record_invariants_witness :
    wGap ∈ computeSkillGaps [⟨"sql", 0⟩] ["sql"] ⟨[], [], []⟩ (fun _ => 0) ∧
      (wGap.gap_size = wGap.required_level - wGap.current_level ∧
       0 < wGap.gap_size ∧ (wGap.is_missing = true → wGap.current_level = 0)) := by
  have heq : computeSkillGaps [⟨"sql", 0⟩] ["sql"] ⟨[], [], []⟩ (fun _ => 0) = [wGap] := rfl
  have hmem : wGap ∈ computeSkillGaps [⟨"sql", 0⟩] ["sql"] ⟨[], [], []⟩ (fun _ => 0) := by
    rw [heq]; exact List.mem_singleton_self wGap
  exact ⟨hmem, gap_record_invariants _ _ _ _ wGap hmem⟩

/-! ## C7 — matching is by lower-casing only, not canonical synonyms -/

/-- C7 counterexample: `js` and `javascript` have the same canonical form
under `normalize_skill_name`, yet swapping one for the other changes the
emitted gap records: `analyze_gaps` lower-cases but never canonicalises, so
`js` fails to match the requirement `javascript` and the skill is treated
as missing. -/
theorem canonical_synonym_counterexample :
    normalize_skill_name "js" = normalize_skill_name "javascript" ∧
    ((computeSkillGaps [⟨"js", 1⟩] ["javascript"] ⟨[], [], []⟩ (fun _ => 0)).map gapView
      ≠ (computeSkillGaps [⟨"javascript", 1⟩] ["javascript"] ⟨[], [], []⟩
          (fun _ => 0)).map gapView) :=
  ⟨by decide, by decide⟩

/-- C7 (amended): gap computation matches skills to requirements after
*lower-casing only* — replacing a skill name by any variant with the same
lower-cased form (and keeping levels) leaves the emitted gap records
unchanged, but same-canonical-form synonyms (e.g. `js` / `javascript`) are
not identified (see the counterexample). -/
theorem gaps_depend_only_on_lowercase (u v : List UserSkill)
    (jobReqs : List String) (m : MarketData) (noise : Nat → ℚ)
    (h : userPairs u = userPairs v) :
    computeSkillGaps u jobReqs m noise = computeSkillGaps v jobReqs m noise := by
  unfold computeSkillGaps
  rw [h]

/-- Witness for C7's amended theorem: `SQL` vs `sql` at level 1. -/
theorem gaps_depend_only_on_lowercase_witness :
    userPairs [⟨"SQL", 1⟩] = userPairs [⟨"sql", 1⟩] ∧
    computeSkillGaps [⟨"SQL", 1⟩] ["sql"] ⟨[], [], []⟩ (fun _ => 0)
      = computeSkillGaps [⟨"sql", 1⟩] ["sql"] ⟨[], [], []⟩ (fun _ => 0) :=
  ⟨by decide, gaps_depend_only_on_lowercase _ _ _ _ _ (by decide)⟩

/-! ## C10 — required level comes from the first substring-matching requirement -/

/-- The keyword loop is exactly `find?` over the substring test followed by
the keyword rule. -/
theorem findLevelInReqs_eq_find (skill : String) :
    ∀ reqs : List String, findLevelInReqs skill reqs
      = (reqs.find? (fun q => py_contains (py_lower q) skill)).map
          (fun q => keywordLevel (py_lower q))
  | [] => rfl
  | q :: rest => by
    by_cases hc : py_contains (py_lower q) skill = true
    · simp [findLevelInReqs, hc]
    · simp [findLevelInReqs, hc, findLevelInReqs_eq_find skill rest]

/-- C10 (confirmed): when a skill name occurs verbatim among the
lower-cased requirement strings, its required level is the keyword level of
the *first* requirement (in list order) containing the skill name as a
substring — so `java` can take its level from `javascript (senior)` — and
the market data is ignored entirely, even when it specifies a level for
that skill. -/
theorem required_level_first_substring_match (skill : String)
    (reqs : List String) (m m' : MarketData) (r : String)
    (hmem : skill ∈ reqs.map py_lower)
    (hfind : reqs.find? (fun q => py_contains (py_lower q) skill) = some r) :
    get_required_level skill reqs m = keywordLevel (py_lower r) ∧
    get_required_level skill reqs m = get_required_level skill reqs m' := by
  have hg : ∀ mk : MarketData,
      get_required_level skill reqs mk = keywordLevel (py_lower r) := by
    intro mk
    unfold get_required_level
    have hc : (reqs.map py_lower).contains skill = true := by simpa using hmem
    rw [hc]
    simp [findLevelInReqs_eq_find, hfind]
  exact ⟨hg m, (hg m).trans (hg m').symm⟩

/-- Witness for C10's theorem: `java` inside `JavaScript (Senior)` wins
over the exact requirement `Java`, yielding the `senior` level even though
the market table maps `java` to level 2. -/
theorem required_level_first_substring_match_witness :
    ("java" ∈ (["JavaScript (Senior)", "Java"].map py_lower)) ∧
    (["JavaScript (Senior)", "Java"].find?
        (fun q => py_contains (py_lower q) "java") = some "JavaScript (Senior)") ∧
    (get_required_level "java" ["JavaScript (Senior)", "Java"] ⟨[("java", 2)], [], []⟩
        = keywordLevel (py_lower "JavaScript (Senior)") ∧
     get_required_level "java" ["JavaScript (Senior)", "Java"] ⟨[("java", 2)], [], []⟩
        = get_required_level "java" ["JavaScript (Senior)", "Java"] ⟨[], [], []⟩) :=
  ⟨by decide, by decide,
   required_level_first_substring_match "java" ["JavaScript (Senior)", "Java"]
     ⟨[("java", 2)], [], []⟩ ⟨[], [], []⟩ "JavaScript (Senior)" (by decide) (by decide)⟩

/-! ## The recommendation path always raises on a non-empty gap list -/

/-- Inserting by `insertGapDesc` permutes the inserted element to the front. -/
theorem insertGapDesc_perm (g : GapRecord) :
    ∀ l : List GapRecord, (insertGapDesc g l).Perm (g :: l)
  | [] => List.Perm.refl _
  | h :: t => by
    unfold insertGapDesc
    split_ifs with hc
    · exact List.Perm.refl _
    · exact ((insertGapDesc_perm g t).cons h).trans (List.Perm.swap g h t)

/-- The stable descending sort permutes its input. -/
theorem sortGapsDesc_perm : ∀ l : List GapRecord, (sortGapsDesc l).Perm l
  | [] => List.Perm.refl _
  | h :: t => (insertGapDesc_perm h (sortGapsDesc t)).trans ((sortGapsDesc_perm t).cons h)

/-- The first unbound-name raise aborts the recommendation loop. -/
theorem buildRecommendations_error_head (m : MarketData) (g : GapRecord)
    (t : List GapRecord) (h : g.current_level < g.required_level) :
    buildRecommendations m (g :: t)
      = .error "NameError: name skill_name is not defined" := by
  have hms : create_development_milestones g
      = .error "NameError: name skill_name is not defined" := by
    unfold create_development_milestones
    exact if_pos h
  rw [buildRecommendations, buildRecommendation, hms]

/-- Whenever the gap-construction phase emits at least one record, the
recommendation generator — and with it the whole `try:` body — raises the
milestone `NameError`. -/
theorem analyzeGapsCore_error_of_gap (hashMatch : List UserSkill → List String → ℚ)
    (userSkills : List UserSkill) (jobReqs : List String) (m : MarketData)
    (noise : Nat → ℚ) (hne : computeSkillGaps userSkills jobReqs m noise ≠ []) :
    analyzeGapsCore hashMatch userSkills jobReqs m noise
      = .error "NameError: name skill_name is not defined" := by
  have hperm : (sortGapsDesc (sortGapsDesc
      (computeSkillGaps userSkills jobReqs m noise))).Perm
      (computeSkillGaps userSkills jobReqs m noise) :=
    (sortGapsDesc_perm _).trans (sortGapsDesc_perm _)
  rcases hl2 : sortGapsDesc (sortGapsDesc (computeSkillGaps userSkills jobReqs m noise))
    with _ | ⟨g0, t0⟩
  · exfalso
    apply hne
    have hp0 : (computeSkillGaps userSkills jobReqs m noise).Perm [] := by
      rw [← hl2]; exact hperm.symm
    exact hp0.eq_nil
  · have hg0 : g0 ∈ computeSkillGaps userSkills jobReqs m noise :=
      hperm.mem_iff.1 (by rw [hl2]; exact List.mem_cons_self g0 t0)
    rcases computeSkillGaps_mem_spec userSkills jobReqs m noise g0 hg0 with ⟨hs, hp, _⟩
    have hlt : g0.current_level < g0.required_level := by
      rw [hs] at hp; omega
    have hgen : generate_gap_recommendations
        (sortGapsDesc (computeSkillGaps userSkills jobReqs m noise)) m
        = .error "NameError: name skill_name is not defined" := by
      unfold generate_gap_recommendations
      rw [hl2]
      have ht : List.take 5 (g0 :: t0) = g0 :: List.take 4 t0 := rfl
      rw [ht]
      exact buildRecommendations_error_head m g0 _ hlt
    unfold analyzeGapsCore
    simp only [hgen]

/-! ## C3 — end-to-end scenario A diverges from the specification -/

/-- C3 (code_bug evidence): on scenario A — user `python` at level 2,
requirements `["Python (Senior)", "SQL"]` — the claim expects exactly a
`python` gap with `gap_size = 3` and an `sql` gap with `required_level = 3`.
The code instead (i) matches names by *exact equality* against the whole
lower-cased requirement strings, so `python` matches neither requirement
and both requirement strings become "missing skills" — the internally built
records are `("python (senior)", 0→5)` and `("sql", 0→4, keyword-less
default 4, not the market default 3) — and (ii) the milestone `NameError`
then sends `analyze_gaps` to its exception fallback, so the returned gaps
list is empty for *every* jitter stream and hash-based match function. -/
theorem scenario_a_divergence :
    ((computeSkillGaps [⟨"python", 2⟩] ["Python (Senior)", "SQL"] ⟨[], [], []⟩
        (fun _ => 0)).map gapView
      = [("python (senior)", 0, 5, 5, true), ("sql", 0, 4, 4, true)]) ∧
    ∀ (hashMatch : List UserSkill → List String → ℚ) (noise : Nat → ℚ),
      (analyze_gaps hashMatch [⟨"python", 2⟩] ["Python (Senior)", "SQL"] ⟨[], [], []⟩
          noise).gaps = [] ∧
      (analyze_gaps hashMatch [⟨"python", 2⟩] ["Python (Senior)", "SQL"] ⟨[], [], []⟩
          noise).error = some "NameError: name skill_name is not defined" := by
  refine ⟨by decide, ?_⟩
  intro hashMatch noise
  have hview : (computeSkillGaps [⟨"python", 2⟩] ["Python (Senior)", "SQL"] ⟨[], [], []⟩
      noise).map gapView
      = [("python (senior)", 0, 5, 5, true), ("sql", 0, 4, 4, true)] := rfl
  have hne : computeSkillGaps [⟨"python", 2⟩] ["Python (Senior)", "SQL"] ⟨[], [], []⟩
      noise ≠ [] := by
    intro h0
    rw [h0] at hview
    simp at hview
  have hcore := analyzeGapsCore_error_of_gap hashMatch [⟨"python", 2⟩]
    ["Python (Senior)", "SQL"] ⟨[], [], []⟩ noise hne
  constructor <;> · unfold analyze_gaps; rw [hcore]

/-! ## C8 — coverage bound and empty-requirements behaviour -/

/-- The coverage percentage always lies in [0, 100]. -/
theorem calculate_coverage_percentage_bounds (u r : List String) :
    0 ≤ calculate_coverage_percentage u r ∧ calculate_coverage_percentage u r ≤ 100 := by
  unfold calculate_coverage_percentage
  split_ifs with h
  · norm_num
  · have hne : r ≠ [] := by simpa [List.isEmpty_iff] using h
    have hlen : 0 < (r.length : ℚ) := by
      exact_mod_cast List.length_pos.2 hne
    constructor
    · positivity
    · have hc : (r.countP (fun s => u.contains s) : ℚ) ≤ (r.length : ℚ) := by
        exact_mod_cast List.countP_le_length _
      rw [div_mul_eq_mul_div, div_le_iff₀ hlen]
      nlinarith

/-- With an empty requirement set the level loop emits nothing. -/
theorem levelGaps_nil_jobLower (m : MarketData) (reqs : List String)
    (noise : Nat → ℚ) :
    ∀ pairs k, levelGaps m reqs [] noise pairs k = ([], k)
  | [], _ => rfl
  | (name, lvl) :: rest, k => by
    rw [levelGaps]
    rw [if_neg (by simp [List.contains])]
    exact levelGaps_nil_jobLower m reqs noise rest k

/-- With no job requirements no gap record is ever built. -/
theorem computeSkillGaps_nil_reqs (us : List UserSkill) (m : MarketData)
    (noise : Nat → ℚ) : computeSkillGaps us [] m noise = [] := by
  unfold computeSkillGaps
  simp [levelGaps_nil_jobLower, missingGaps]

/-- C8 (confirmed): the returned coverage percentage lies in [0, 100] on
every path (the exception fallback reports 0), and with an empty
requirement list `analyze_gaps` succeeds with no gaps, coverage 100, match
score 100 and an empty recommendation list. -/
theorem coverage_bound_and_empty_requirements
    (hashMatch : List UserSkill → List String → ℚ) (userSkills : List UserSkill)
    (jobReqs : List String) (m : MarketData) (noise : Nat → ℚ) :
    (0 ≤ (analyze_gaps hashMatch userSkills jobReqs m noise).summary.coverage_percentage ∧
     (analyze_gaps hashMatch userSkills jobReqs m noise).summary.coverage_percentage ≤ 100) ∧
    (jobReqs = [] →
      (analyze_gaps hashMatch userSkills jobReqs m noise).error = none ∧
      (analyze_gaps hashMatch userSkills jobReqs m noise).gaps = [] ∧
      (analyze_gaps hashMatch userSkills jobReqs m noise).summary.coverage_percentage = 100 ∧
      (analyze_gaps hashMatch userSkills jobReqs m noise).summary.match_score = 100 ∧
      (analyze_gaps hashMatch userSkills jobReqs m noise).recommendations = some []) := by
  constructor
  · rcases hgen : generate_gap_recommendations
        (sortGapsDesc (computeSkillGaps userSkills jobReqs m noise)) m with e | recs
    · simp [analyze_gaps, analyzeGapsCore, hgen, zeroSummary]
    · have hred : (analyze_gaps hashMatch userSkills jobReqs m noise).summary.coverage_percentage
          = calculate_coverage_percentage (userSkills.map fun s => py_lower s.name)
              (jobReqs.map py_lower) := by
        simp [analyze_gaps, analyzeGapsCore, hgen]
      rw [hred]
      exact calculate_coverage_percentage_bounds _ _
  · intro hr
    subst hr
    have hgaps : computeSkillGaps userSkills [] m noise = [] :=
      computeSkillGaps_nil_reqs userSkills m noise
    have hgen : generate_gap_recommendations ([] : List GapRecord) m = .ok [] := rfl
    refine ⟨?_, ?_, ?_, ?_, ?_⟩ <;>
      simp [analyze_gaps, analyzeGapsCore, hgen, hgaps, sortGapsDesc,
        calculate_coverage_percentage, calculate_match_score]

/-- Witness for C8's theorem at concrete inputs with no requirements. -/
theorem coverage_bound_and_empty_requirements_witness :
    (([] : List String) = []) ∧
    (0 ≤ (analyze_gaps (fun _ _ => 0) [⟨"python", 2⟩] [] ⟨[], [], []⟩
        (fun _ => 0)).summary.coverage_percentage) ∧
    (analyze_gaps (fun _ _ => 0) [⟨"python", 2⟩] [] ⟨[], [], []⟩ (fun _ => 0)).error = none ∧
    (analyze_gaps (fun _ _ => 0) [⟨"python", 2⟩] [] ⟨[], [], []⟩ (fun _ => 0)).gaps = [] ∧
    (analyze_gaps (fun _ _ => 0) [⟨"python", 2⟩] [] ⟨[], [], []⟩
        (fun _ => 0)).summary.coverage_percentage = 100 ∧
    (analyze_gaps (fun _ _ => 0) [⟨"python", 2⟩] [] ⟨[], [], []⟩
        (fun _ => 0)).summary.match_score = 100 ∧
    (analyze_gaps (fun _ _ => 0) [⟨"python", 2⟩] [] ⟨[], [], []⟩
        (fun _ => 0)).recommendations = some [] := by
  have h := coverage_bound_and_empty_requirements (fun _ _ => 0) [⟨"python", 2⟩] []
    ⟨[], [], []⟩ (fun _ => 0)
  exact ⟨rfl, h.1.1, (h.2 rfl).1, (h.2 rfl).2.1, (h.2 rfl).2.2.1,
    (h.2 rfl).2.2.2.1, (h.2 rfl).2.2.2.2⟩

/-! ## C6 — timeline structure -/

/-- The three priority bands partition the gap list (as a permutation). -/
theorem bands_perm (l : List GapRecord) :
    (highBand l ++ mediumBand l ++ lowBand l).Perm l := by
  induction l with
  | nil => simp [highBand, mediumBand, lowBand]
  | cons g t ih =>
    by_cases h1 : (4:ℚ)/5 ≤ g.priority
    · have e1 : highBand (g :: t) = g :: highBand t := by
        simp [highBand, List.filter_cons, h1]
      have e2 : mediumBand (g :: t) = mediumBand t := by
        simp only [mediumBand, List.filter_cons]
        rw [if_neg]
        simp only [decide_eq_true_eq, not_and, not_lt]
        intro _
        exact h1
      have e3 : lowBand (g :: t) = lowBand t := by
        simp only [lowBand, List.filter_cons]
        rw [if_neg]
        simp only [decide_eq_true_eq, not_lt]
        linarith
      rw [e1, e2, e3]
      simpa using ih.cons g
    · by_cases h2 : (1:ℚ)/2 ≤ g.priority
      · have e1 : highBand (g :: t) = highBand t := by
          simp [highBand, List.filter_cons, h1]
        have e2 : mediumBand (g :: t) = g :: mediumBand t := by
          simp only [mediumBand, List.filter_cons]
          rw [if_pos]
          simp only [decide_eq_true_eq]
          exact ⟨h2, lt_of_not_le h1⟩
        have e3 : lowBand (g :: t) = lowBand t := by
          simp only [lowBand, List.filter_cons]
          rw [if_neg]
          simp only [decide_eq_true_eq, not_lt]
          exact h2
        rw [e1, e2, e3]
        refine List.Perm.trans ?_ (ih.cons g)
        have heq : highBand t ++ (g :: mediumBand t) ++ lowBand t
            = highBand t ++ g :: (mediumBand t ++ lowBand t) := by
          simp [List.append_assoc]
        rw [heq]
        have hpm := @List.perm_middle GapRecord g (highBand t)
          (mediumBand t ++ lowBand t)
        simp only [List.append_assoc]
        exact hpm
      · have e1 : highBand (g :: t) = highBand t := by
          simp [highBand, List.filter_cons, h1]
        have e2 : mediumBand (g :: t) = mediumBand t := by
          simp only [mediumBand, List.filter_cons]
          rw [if_neg]
          simp only [decide_eq_true_eq, not_and]
          intro hc
          exact absurd hc h2
        have e3 : lowBand (g :: t) = g :: lowBand t := by
          simp only [lowBand, List.filter_cons]
          rw [if_pos]
          simp only [decide_eq_true_eq]
          exact lt_of_not_le h2
        rw [e1, e2, e3]
        refine List.Perm.trans ?_ (ih.cons g)
        have hpm := @List.perm_middle GapRecord g (highBand t ++ mediumBand t)
          (lowBand t)
        simpa [List.append_assoc] using hpm

/-- C6 (confirmed): the timeline partitions the gaps into the three
priority bands preserving order within each band (the concatenation of the
phases' skills is exactly high ++ medium ++ low, each band an
order-preserving filter of the input, and together a permutation of it);
each non-empty band is one 6-month phase executed high → medium → low with
consecutive months (`end − start = duration` and each phase's end month is
the next one's start month); `total_duration` is the sum of the phase
durations; and `critical_path` lists exactly the high-band skill names in
order. -/
theorem create_development_timeline_spec (gaps : List GapRecord) :
    List.Chain' (fun p q => p.end_month = q.start_month)
      (create_development_timeline gaps).phases ∧
    (∀ p ∈ (create_development_timeline gaps).phases,
       p.end_month - p.start_month = p.duration ∧ p.duration = 6) ∧
    (create_development_timeline gaps).total_duration
      = ((create_development_timeline gaps).phases.map Phase.duration).sum ∧
    (create_development_timeline gaps).critical_path
      = (highBand gaps).map GapRecord.skill_name ∧
    ((create_development_timeline gaps).phases.map Phase.skills).flatten
      = highBand gaps ++ mediumBand gaps ++ lowBand gaps ∧
    (((create_development_timeline gaps).phases.map Phase.skills).flatten).Perm gaps := by
  have hperm := bands_perm gaps
  cases h1 : (highBand gaps).isEmpty <;> cases h2 : (mediumBand gaps).isEmpty <;>
    cases h3 : (lowBand gaps).isEmpty <;>
  · refine ⟨?_, ?_, ?_, ?_, ?_, ?_⟩ <;>
      simp_all [create_development_timeline, List.isEmpty_iff, List.chain'_cons]
